import Mathlib

/-!
Verification of the educational manager agent's session-state tools.

The Python source is shallowly embedded: session state becomes an explicit
`SessionState` structure threaded through each tool, Python dicts become
insertion-ordered association lists, Python `str` operations are modelled on
ASCII data, and wall-clock timestamps (`datetime.now()` / `date.today()`)
become explicit `now` / `today` string parameters.  Tools that mutate
`tool_context.state` return the updated state alongside their result dict.
-/

namespace EduMgr

/-! ## Python string primitives (ASCII semantics) -/

/-- Python `str.lower()` for ASCII text: lower-case every character. -/
def pyLower (s : String) : String := ⟨s.data.map Char.toLower⟩

/-- Python `str.strip()`: drop leading and trailing whitespace. -/
def pyStrip (s : String) : String :=
  ⟨((s.data.dropWhile Char.isWhitespace).reverse.dropWhile Char.isWhitespace).reverse⟩

/-- Helper for `pyTitle`: the flag records whether the previous character was
alphabetic (Python `str.title()` upper-cases a letter exactly when the
preceding character is not a letter). -/
def pyTitleAux : Bool → List Char → List Char
  | _, [] => []
  | prevAlpha, c :: cs =>
    if c.isAlpha then
      (if prevAlpha then c.toLower else c.toUpper) :: pyTitleAux true cs
    else
      c :: pyTitleAux false cs

/-- Python `str.title()` for ASCII text. -/
def pyTitle (s : String) : String := ⟨pyTitleAux false s.data⟩

/-- Python substring membership `needle in hay`. -/
def pyIn (needle hay : String) : Prop := needle.data <:+: hay.data

instance (needle hay : String) : Decidable (pyIn needle hay) :=
  List.decidableInfix needle.data hay.data

/-- Python slicing `s[:n]`. -/
def pyTake (s : String) (n : Nat) : String := ⟨s.data.take n⟩

/-- Python `str.replace` for a single-character pattern, as used with
`replace('_', ' ')`. -/
def pyReplaceChar (s : String) (a b : Char) : String :=
  ⟨s.data.map (fun c => if c = a then b else c)⟩

/-- Python format spec `{n:04d}` for a natural number: left-pad the decimal
representation with zeros to (at least) four digits. -/
def pad4 (n : Nat) : String :=
  String.mk (List.replicate (4 - (toString n).length) '0') ++ toString n

/-! ## Python dict operations on insertion-ordered association lists -/

/-- Python `d.get(k)` / `d[k]`: value of the first binding of `k`. -/
def dictGet {α : Type} (l : List (String × α)) (k : String) : Option α :=
  match l with
  | [] => none
  | (k', v) :: rest => if k' = k then some v else dictGet rest k

/-- Python `d[k] = v`: replace the first binding of `k` in place, or append a
new binding at the end (insertion order is preserved, as for Python dicts). -/
def dictInsert {α : Type} (l : List (String × α)) (k : String) (v : α) :
    List (String × α) :=
  match l with
  | [] => [(k, v)]
  | (k', v') :: rest =>
    if k' = k then (k, v) :: rest else (k', v') :: dictInsert rest k v

@[simp] theorem dictGet_nil {α : Type} (k : String) :
    dictGet ([] : List (String × α)) k = none := rfl

@[simp] theorem dictGet_cons {α : Type} (k k' : String) (v : α) (rest : List (String × α)) :
    dictGet ((k', v) :: rest) k = if k' = k then some v else dictGet rest k := rfl

theorem dictGet_dictInsert_self {α : Type} (l : List (String × α)) (k : String) (v : α) :
    dictGet (dictInsert l k v) k = some v := by
  induction l with
  | nil => simp [dictInsert, dictGet]
  | cons p rest ih =>
    obtain ⟨k', v'⟩ := p
    by_cases h : k' = k
    · simp [dictInsert, dictGet, h]
    · simp [dictInsert, dictGet, h, ih]

theorem dictGet_dictInsert_ne {α : Type} (l : List (String × α)) (k k' : String) (v : α)
    (h : k ≠ k') : dictGet (dictInsert l k v) k' = dictGet l k' := by
  induction l with
  | nil => simp [dictInsert, dictGet, h]
  | cons p rest ih =>
    obtain ⟨k'', v''⟩ := p
    by_cases h2 : k'' = k
    · subst h2
      simp [dictInsert, dictGet, h]
    · simp [dictInsert, dictGet, h2, ih]

theorem dictGet_append_right {α : Type} (l₁ l₂ : List (String × α)) (k : String)
    (h : dictGet l₁ k = none) : dictGet (l₁ ++ l₂) k = dictGet l₂ k := by
  induction l₁ with
  | nil => simp
  | cons p rest ih =>
    obtain ⟨k', v⟩ := p
    by_cases h2 : k' = k
    · simp [dictGet, h2] at h
    · simp only [dictGet, h2, if_false] at h
      simpa [dictGet, h2] using ih h

theorem dictInsert_keys {α : Type} (l : List (String × α)) (k : String) (v : α)
    (h : l.any (fun p => p.1 = k)) :
    (dictInsert l k v).map Prod.fst = l.map Prod.fst := by
  induction l with
  | nil => simp at h
  | cons p rest ih =>
    obtain ⟨k', v'⟩ := p
    by_cases h2 : k' = k
    · subst h2
      simp [dictInsert]
    · simp only [List.any_cons, decide_eq_true_eq, h2, Bool.false_or] at h
      simp [dictInsert, h2, ih h]

/-! ## Python `round` on exact rationals (round-half-to-even, as for floats) -/

/-- Round to the nearest integer, ties to even (Python and IEEE-754 default). -/
def roundHalfEven (q : ℚ) : ℤ :=
  let f : ℤ := ⌊q⌋
  let r : ℚ := q - f
  if r < 1/2 then f
  else if 1/2 < r then f + 1
  else if f % 2 = 0 then f else f + 1

/-- Python `round(q, 1)`. -/
def pyRound1 (q : ℚ) : ℚ := (roundHalfEven (q * 10) : ℚ) / 10

/-- Python `round(q, 2)`. -/
def pyRound2 (q : ℚ) : ℚ := (roundHalfEven (q * 100) : ℚ) / 100

/-! ## Session-state data model

Mirrors the recognized keys of the per-session document.  Every key the
tools access through `state.get(key, default)` is a field whose "missing"
value is the corresponding default (`{}` / `[]` / absent string). -/

/-- Entry of `interaction_history` (manager/agent.py `log_interaction`). -/
structure InteractionEntry where
  timestamp : String
  itype : String
  details : String
  session_count : Nat
  user_role : String
deriving Repr, DecidableEq

/-- Value of `attendance_records[date_studentId]` (attendance_agent). -/
structure AttRecord where
  student_id : String
  student_name : String
  grade : String
  date : String
  status : String
  timestamp : String
  marked_by : String
deriving Repr, DecidableEq

/-- Value of `students_database[student_id]` (attendance_agent).
`last_attendance` is absent until the first successful save. -/
structure Student where
  name : String
  grade : String
  created_date : String
  total_attendance_days : Nat
  created_by : String
  last_attendance : Option String
deriving Repr, DecidableEq

/-- Value of the `preferences` key. -/
structure Preferences where
  language : String
  difficulty_level : String
  subjects : List String
deriving Repr, DecidableEq

/-- Default preferences restored by `clear_user_data`. -/
def defaultPreferences : Preferences :=
  { language := "english", difficulty_level := "medium", subjects := [] }

/-- One question of the fixed evaluation questionnaire.  The Python dict key
`type` is rendered as `qtype` (`type` is reserved in Lean). -/
structure EvalQuestion where
  category : String
  question : String
  qtype : String
  importance : String
deriving Repr, DecidableEq, Inhabited

/-- Value stored in `session["answers"][question_type]`. -/
structure AnswerEntry where
  question : String
  answer : String
  category : String
  timestamp : String
deriving Repr, DecidableEq

/-- Value of `evaluation_sessions[session_id]` (student_evaluation_agent).
`completion_time` is absent until the evaluation completes. -/
structure EvalSession where
  session_id : String
  student_name : String
  start_time : String
  questions : List EvalQuestion
  current_question_index : Nat
  answers : List (String × AnswerEntry)
  status : String
  completion_time : Option String
  evaluator : String
deriving Repr, DecidableEq

/-- The `academic_analysis` block of an evaluation analysis. -/
structure AcademicAnalysis where
  favorite_subject : String
  challenging_subject : String
  grade_level : String
  academic_confidence : String
deriving Repr, DecidableEq

/-- The `learning_style_analysis` block of an evaluation analysis. -/
structure LearningStyleAnalysis where
  primary_style : String
  social_learning : String
  technology_comfort : String
deriving Repr, DecidableEq

/-- The `emotional_analysis` block of an evaluation analysis. -/
structure EmotionalAnalysis where
  emotional_stability : String
  motivation_level : String
  resilience : String
deriving Repr, DecidableEq

/-- Result of `analyze_student_responses` (student_evaluation_agent). -/
structure Analysis where
  student_name : String
  evaluation_date : String
  session_id : String
  academic_analysis : AcademicAnalysis
  learning_style_analysis : LearningStyleAnalysis
  emotional_analysis : EmotionalAnalysis
  strengths : List String
  weaknesses : List String
  recommendations : List String
  summary : String
deriving Repr, DecidableEq

/-- Value of `student_profiles[student_name]`. -/
structure StudentProfile where
  profile_created : String
  last_evaluation : String
  analysis : Analysis
  raw_answers : List (String × AnswerEntry)
deriving Repr, DecidableEq

/-- The per-session key-value document. -/
structure SessionState where
  user_name : Option String
  user_role : Option String
  session_count : Nat
  preferences : Preferences
  interaction_history : List InteractionEntry
  attendance_records : List (String × AttRecord)
  students_database : List (String × Student)
  student_profiles : List (String × StudentProfile)
  evaluation_sessions : List (String × EvalSession)
deriving Repr, DecidableEq

/-- A fresh session document (all recognized keys at their `get` defaults). -/
def emptyState : SessionState :=
  { user_name := none, user_role := none, session_count := 0,
    preferences := defaultPreferences, interaction_history := [],
    attendance_records := [], students_database := [],
    student_profiles := [], evaluation_sessions := [] }

/-! ## manager/agent.py: log_interaction -/

/-- The entry appended by `log_interaction` (manager/agent.py): details are
truncated to 500 characters; session count and role are read from the state. -/
def logEntry (interaction_type details now : String) (s : SessionState) :
    InteractionEntry :=
  { timestamp := now, itype := interaction_type, details := pyTake details 500,
    session_count := s.session_count,
    user_role := s.user_role.getD "unknown" }

/-- `log_interaction` (manager/agent.py): append the entry, then keep only the
last 100 entries (`history[-100:]`) when the list exceeds 100. -/
def log_interaction (interaction_type details now : String) (s : SessionState) :
    SessionState :=
  let interaction_history := s.interaction_history ++ [logEntry interaction_type details now s]
  let interaction_history :=
    if interaction_history.length > 100 then
      interaction_history.drop (interaction_history.length - 100)
    else interaction_history
  { s with interaction_history := interaction_history }

/-! ## attendance_agent/agent.py: save_attendance -/

/-- Return dict of `save_attendance`, as a sum over the three return shapes.
`is_new_student` reproduces the expression computed in the success return. -/
inductive SaveResult where
  | error (message : String)
  | info (message : String) (existing_record : AttRecord)
  | success (record : AttRecord) (student_info : Student) (message : String)
      (is_new_student : Bool)
deriving Repr, DecidableEq

/-- The `status` field of a `save_attendance` return dict. -/
def SaveResult.status : SaveResult → String
  | .error _ => "error"
  | .info _ _ => "info"
  | .success _ _ _ _ => "success"

/-- The student-lookup loop of `save_attendance` and `get_attendance_summary`:
first entry whose stored name lower-cases to `nameLower` (Python dict
iteration follows insertion order). -/
def findStudent (db : List (String × Student)) (nameLower : String) :
    Option (String × Student) :=
  match db with
  | [] => none
  | (sid, st) :: rest =>
    if pyLower st.name = nameLower then some (sid, st) else findStudent rest nameLower

/-- Python truthiness of the optional `grade` argument (`None` and `""` are
falsy). -/
def gradeTruthy : Option String → Bool
  | none => false
  | some g => g ≠ ""

/-- Shared tail of `save_attendance` from the `record_key` computation on:
`stud` is the (possibly grade-updated) roster entry for `sid`, `db` the
roster after student creation / grade update (already written to the state
before the duplicate check, as in the source). -/
def saveAttendanceTail (sid name date_str now : String) (stud : Student)
    (db : List (String × Student)) (s : SessionState) :
    SaveResult × SessionState :=
  let record_key := date_str ++ "_" ++ sid
  let record : AttRecord :=
    { student_id := sid, student_name := name, grade := stud.grade,
      date := date_str, status := "present", timestamp := now,
      marked_by := s.user_name.getD "system" }
  match dictGet s.attendance_records record_key with
  | some existing =>
    (.info ("Attendance already marked for " ++ name ++ " on " ++ date_str) existing,
     { s with students_database := db })
  | none =>
    let attendance_records := dictInsert s.attendance_records record_key record
    let stud' : Student :=
      { stud with total_attendance_days := stud.total_attendance_days + 1,
                  last_attendance := some date_str }
    let db' := dictInsert db sid stud'
    (.success record stud'
      ("✅ Attendance saved for " ++ name ++ " (Grade: " ++ stud'.grade ++ ") on " ++ date_str)
      (!((((attendance_records.map Prod.snd).filter
            (fun r => r.student_id ≠ sid)).map (·.student_id)).contains sid)),
     { s with students_database := db', attendance_records := attendance_records })

/-- Python `date_str = date_str or today` defaulting at the head of
`save_attendance` (`None` and `""` are both falsy). -/
def resolveDate (date_str : Option String) (today : String) : String :=
  match date_str with
  | none => today
  | some d => if d = "" then today else d

/-- The fresh roster entry created by `save_attendance` for an unknown
student (`grade or "Not specified"`, zero attendance days so far). -/
def mkNewStudent (name : String) (grade : Option String) (now : String)
    (s : SessionState) : Student :=
  { name := name,
    grade := match grade with
      | none => "Not specified"
      | some g => if g = "" then "Not specified" else g,
    created_date := now, total_attendance_days := 0,
    created_by := s.user_name.getD "system", last_attendance := none }

/-- The `if grade and students_db[student_id].get("grade") != grade` branch of
`save_attendance`: the (possibly updated) roster entry and roster. -/
def gradeUpdate (db : List (String × Student)) (sid : String) (stud : Student)
    (grade : Option String) : Student × List (String × Student) :=
  match grade with
  | some g =>
    if g ≠ "" ∧ stud.grade ≠ g then
      ({ stud with grade := g }, dictInsert db sid { stud with grade := g })
    else (stud, db)
  | none => (stud, db)

/-- `save_attendance` (attendance_agent/agent.py).  `today` stands for
`date.today().isoformat()` and `now` for `datetime.now().isoformat()`. -/
def save_attendance (student_name : String) (grade : Option String)
    (date_str : Option String) (today now : String) (s : SessionState) :
    SaveResult × SessionState :=
  let date_str := resolveDate date_str today
  if pyStrip student_name = "" then
    (.error "Student name is required", s)
  else
    let student_name := pyTitle (pyStrip student_name)
    match findStudent s.students_database (pyLower student_name) with
    | none =>
      let student_id := "student_" ++ pad4 (s.students_database.length + 1)
      let new_student := mkNewStudent student_name grade now s
      let db := dictInsert s.students_database student_id new_student
      saveAttendanceTail student_id student_name date_str now new_student db s
    | some (student_id, stud) =>
      let updated := gradeUpdate s.students_database student_id stud grade
      saveAttendanceTail student_id student_name date_str now updated.1 updated.2 s

/-- Body of the `save_attendance` tool as run inside its `try`: a missing
tool context raises an `AttributeError` in `clean_state_data` (modelled as
`Except.error`); with a well-typed context the body cannot raise. -/
def save_attendance_body (student_name : String) (grade date_str : Option String)
    (today now : String) (ctx : Option SessionState) :
    Except String (SaveResult × SessionState) :=
  match ctx with
  | none => .error "AttributeError: NoneType object has no attribute state"
  | some s => .ok (save_attendance student_name grade date_str today now s)

/-- The `save_attendance` tool including its catch-all handler: any exception
from the body becomes an `{status: error, message}` return dict. -/
def save_attendance_tool (student_name : String) (grade date_str : Option String)
    (today now : String) (ctx : Option SessionState) :
    SaveResult × Option SessionState :=
  match save_attendance_body student_name grade date_str today now ctx with
  | .ok (r, s) => (r, some s)
  | .error e => (.error ("Failed to save attendance: " ++ e), ctx)

/-! ## attendance_agent/agent.py: get_attendance_summary (single-student branch) -/

/-- The per-student summary dict built by `get_attendance_summary`. -/
structure AttSummary where
  student_id : String
  total_days : Nat
  present_days : Nat
  attendance_percentage : ℚ
deriving Repr, DecidableEq

/-- Single-student branch of `get_attendance_summary`.  Record dates are ISO
strings in the source, parsed with `datetime.fromisoformat`; the parse is
abstracted as `parseOrd : String → Nat` (day ordinal), and the window
`[today - date_range_days, today]` as `[startOrd, endOrd]`.  Returns `none`
for the student-not-found error dict.  `mkAttSummary` is the per-student
`summary` dict computed from the qualifying records. -/
def mkAttSummary (student_id : String) (student_records : List AttRecord) :
    AttSummary :=
  let total_days := student_records.length
  let present_days := (student_records.filter (fun r => r.status = "present")).length
  let attendance_percentage : ℚ :=
    if total_days > 0 then (present_days : ℚ) / (total_days : ℚ) * 100 else 0
  { student_id := student_id, total_days := total_days,
    present_days := present_days,
    attendance_percentage := pyRound2 attendance_percentage }

def get_attendance_summary_student (student_name : String)
    (parseOrd : String → Nat) (startOrd endOrd : Nat) (s : SessionState) :
    Option AttSummary :=
  match findStudent s.students_database (pyLower student_name) with
  | none => none
  | some (student_id, _) =>
    some (mkAttSummary student_id
      ((s.attendance_records.map Prod.snd).filter
        (fun r => r.student_id = student_id ∧
          startOrd ≤ parseOrd r.date ∧ parseOrd r.date ≤ endOrd)))

/-! ## manager/agent.py: clear_user_data and update_user_info -/

/-- `clear_user_data` (manager/agent.py): dispatch on the lower-cased
`data_type`; the `all` branch deletes every key and restores the essential
skeleton.  The closing `log_interaction` call is included; the returned
confirmation dict carries no state and is not modelled. -/
def clear_user_data (data_type now : String) (s : SessionState) : SessionState :=
  let dt := pyLower data_type
  let s := if dt = "interactions" ∨ dt = "all" then
      { s with interaction_history := [] } else s
  let s := if dt = "attendance" ∨ dt = "all" then
      { s with attendance_records := [] } else s
  let s := if dt = "preferences" ∨ dt = "all" then
      { s with preferences := defaultPreferences } else s
  let s := if dt = "all" then
      ({ emptyState with
          user_name := s.user_name
          user_role := s.user_role
          session_count := s.session_count })
    else s
  log_interaction "data_cleanup" ("Cleared " ++ data_type ++ " data") now s

/-- Return dict of `update_user_info` (no `status` field). -/
structure UpdateUserInfoResult where
  name : String
  role : String
  old_name : String
  old_role : String
  session_count : Nat
  message : String
deriving Repr, DecidableEq

/-- Python `str(x)` rendering of the optional role, for the f-strings. -/
def roleStr : Option String → String
  | none => "None"
  | some r => r

/-- `update_user_info` (manager/agent.py).  The function has no catch-all
`try` around its body: a missing tool context raises an uncaught
`AttributeError` inside `clean_state_data` (modelled as `Except.error`).
With `role = None`, `str(role.lower())` raises inside the inner `try`, so
`user_name` is written but `user_role` is left unchanged and the warning is
swallowed, as in the source. -/
def update_user_info (name : String) (role : Option String) (now : String)
    (ctx : Option SessionState) :
    Except String (UpdateUserInfoResult × SessionState) :=
  match ctx with
  | none => .error "AttributeError: NoneType object has no attribute state"
  | some s =>
    let old_name := s.user_name.getD ""
    let old_role := s.user_role.getD ""
    let s := match role with
      | some r => { s with user_name := some name, user_role := some (pyLower r) }
      | none => { s with user_name := some name }
    let session_count := s.session_count + 1
    let s := { s with session_count := session_count }
    let s := log_interaction "user_info_update"
        ("Updated to " ++ name ++ " (" ++ roleStr role ++ ")") now s
    .ok ({ name := name, role := roleStr role, old_name := old_name,
           old_role := old_role, session_count := session_count,
           message := "Updated user info: " ++ name ++ " (" ++ roleStr role ++
             ") - Session #" ++ toString session_count }, s)

/-! ## student_evaluation_agent/agent.py: questionnaire and analysis -/

/-- The fixed question list built by `start_student_evaluation` (the first
question interpolates the student name). -/
def evaluation_questions (student_name : String) : List EvalQuestion :=
  [ { category := "basic_info",
      question := "Hi " ++ student_name ++ "! Let\x27s start with some basic information. How old are you?",
      qtype := "age", importance := "high" },
    { category := "academic",
      question := "What grade/class are you currently in?",
      qtype := "grade_level", importance := "high" },
    { category := "academic",
      question := "Which school do you attend?",
      qtype := "school_info", importance := "medium" },
    { category := "interests",
      question := "What is your favorite subject in school and why?",
      qtype := "favorite_subject", importance := "high" },
    { category := "interests",
      question := "Which subject do you find most difficult or challenging?",
      qtype := "difficult_subject", importance := "high" },
    { category := "learning_style",
      question := "How do you prefer to learn new things? (reading, watching videos, hands-on activities, listening to explanations)",
      qtype := "learning_preference", importance := "high" },
    { category := "hobbies",
      question := "What do you like to do in your free time? What are your hobbies?",
      qtype := "hobbies", importance := "medium" },
    { category := "social",
      question := "Do you prefer working alone or with other students? Why?",
      qtype := "social_preference", importance := "medium" },
    { category := "motivation",
      question := "What motivates you to study? What are your goals?",
      qtype := "motivation", importance := "high" },
    { category := "challenges",
      question := "What do you find most challenging about school or learning?",
      qtype := "learning_challenges", importance := "high" },
    { category := "emotional",
      question := "How do you feel when you don\x27t understand something in class?",
      qtype := "emotional_response", importance := "high" },
    { category := "activities",
      question := "What activities have you done recently that you enjoyed?",
      qtype := "recent_activities", importance := "medium" },
    { category := "family",
      question := "Does anyone at home help you with your studies? How?",
      qtype := "family_support", importance := "medium" },
    { category := "technology",
      question := "Are you comfortable using computers, tablets, or educational apps?",
      qtype := "tech_comfort", importance := "medium" },
    { category := "future",
      question := "What do you want to be when you grow up? Any dream career?",
      qtype := "career_aspirations", importance := "medium" } ]

/-- Lower-cased answer text for a question type, `""` when unanswered
(`answers.get(k, {}).get("answer", "")`). -/
def answerText (answers : List (String × AnswerEntry)) (k : String) : String :=
  ((dictGet answers k).map (·.answer)).getD ""

/-- The `academic_confidence` rule of `analyze_student_responses`. -/
def academicConfidenceOf (difficult_subject : String) : String :=
  if pyIn "easy" difficult_subject ∨ pyIn "none" difficult_subject then "high"
  else "medium"

/-- The learning-style keyword chain of `analyze_student_responses`
(`learning_style = "visual"` default, then reassigned by the `if`/`elif`). -/
def learningStyleOf (learning_pref : String) : String :=
  if pyIn "hands-on" learning_pref ∨ pyIn "activities" learning_pref then "kinesthetic"
  else if pyIn "listening" learning_pref ∨ pyIn "explanation" learning_pref then "auditory"
  else if pyIn "reading" learning_pref ∨ pyIn "text" learning_pref then "reading/writing"
  else if pyIn "video" learning_pref ∨ pyIn "watching" learning_pref then "visual"
  else "visual"

/-- The `emotional_stability` keyword chain of `analyze_student_responses`. -/
def emotionalStabilityOf (emotional_response : String) : String :=
  if pyIn "frustrated" emotional_response ∨ pyIn "angry" emotional_response then "needs_support"
  else if pyIn "sad" emotional_response ∨ pyIn "give up" emotional_response then "low_confidence"
  else if pyIn "ask" emotional_response ∨ pyIn "help" emotional_response then "help_seeking"
  else "stable"

/-- The analysis dict built by `analyze_student_responses` for a session. -/
def buildAnalysis (session : EvalSession) (session_id now : String) : Analysis :=
  let answers := session.answers
  let student_name := session.student_name
  let favorite_subject := pyLower (answerText answers "favorite_subject")
  let difficult_subject := pyLower (answerText answers "difficult_subject")
  let grade_level := answerText answers "grade_level"
  let academic_analysis : AcademicAnalysis :=
    { favorite_subject := favorite_subject, challenging_subject := difficult_subject,
      grade_level := grade_level,
      academic_confidence := academicConfidenceOf difficult_subject }
  let learning_pref := pyLower (answerText answers "learning_preference")
  let social_pref := pyLower (answerText answers "social_preference")
  let tech_comfort := pyLower (answerText answers "tech_comfort")
  let learning_style := learningStyleOf learning_pref
  let learning_style_analysis : LearningStyleAnalysis :=
    { primary_style := learning_style,
      social_learning :=
        if pyIn "group" social_pref ∨ pyIn "others" social_pref then "collaborative"
        else "independent",
      technology_comfort :=
        if pyIn "yes" tech_comfort ∨ pyIn "comfortable" tech_comfort then "high"
        else "medium" }
  let emotional_response := pyLower (answerText answers "emotional_response")
  let motivation := pyLower (answerText answers "motivation")
  let emotional_stability := emotionalStabilityOf emotional_response
  let emotional_analysis : EmotionalAnalysis :=
    { emotional_stability := emotional_stability,
      motivation_level :=
        if pyIn "goal" motivation ∨ pyIn "future" motivation then "high" else "medium",
      resilience :=
        if pyIn "try again" emotional_response ∨ pyIn "practice" emotional_response then "high"
        else "medium" }
  let strengths :=
    (if favorite_subject ≠ "" ∧ favorite_subject ≠ "none" then
      ["Strong interest in " ++ favorite_subject] else [])
    ++ (if pyIn "collaborative" learning_style_analysis.social_learning then
      ["Works well with others"] else [])
    ++ (if emotional_analysis.motivation_level = "high" then
      ["Highly motivated learner"] else [])
    ++ (if pyIn "help_seeking" emotional_stability then
      ["Comfortable asking for help"] else [])
  let weaknesses :=
    (if difficult_subject ≠ "" ∧ difficult_subject ≠ "none" then
      ["Needs support in " ++ difficult_subject] else [])
    ++ (if emotional_stability = "needs_support" then
      ["May need emotional support when facing challenges"] else [])
    ++ (if learning_style_analysis.technology_comfort = "medium" then
      ["Could benefit from technology skills development"] else [])
  let weaknesses :=
    if weaknesses = [] then ["No significant weaknesses identified"] else weaknesses
  let recommendations :=
    (if learning_style = "kinesthetic" then
      ["Use hands-on activities, experiments, and interactive learning"]
    else if learning_style = "visual" then
      ["Incorporate visual aids, diagrams, and video content"]
    else if learning_style = "auditory" then
      ["Use discussions, explanations, and audio materials"] else [])
    ++ (if difficult_subject ≠ "" then
      ["Provide extra support and practice in " ++ difficult_subject,
       "Break down " ++ difficult_subject ++ " concepts into smaller, manageable parts"]
    else [])
    ++ (if emotional_stability = "needs_support" then
      ["Create a supportive learning environment with positive reinforcement",
       "Teach coping strategies for handling difficult concepts"] else [])
    ++ (if pyIn "collaborative" learning_style_analysis.social_learning then
      ["Include group projects and peer learning opportunities"]
    else
      ["Provide individual learning paths and self-paced activities"])
  let summary_parts :=
    [student_name ++ " is a " ++ grade_level ++ " student with a " ++ learning_style ++
      " learning style."]
    ++ (if favorite_subject ≠ "" then
      ["They show strong interest in " ++ favorite_subject ++ "."] else [])
    ++ (if difficult_subject ≠ "" ∧ difficult_subject ≠ "none" then
      ["They find " ++ difficult_subject ++
        " challenging and would benefit from additional support."] else [])
    ++ ["Their emotional response to challenges suggests they are " ++
        pyReplaceChar emotional_stability '_' ' ' ++ "."]
    ++ (if learning_style_analysis.social_learning = "collaborative" then
      ["They prefer collaborative learning environments."]
    else
      ["They work well independently."])
  { student_name := student_name, evaluation_date := now, session_id := session_id,
    academic_analysis := academic_analysis,
    learning_style_analysis := learning_style_analysis,
    emotional_analysis := emotional_analysis,
    strengths := strengths, weaknesses := weaknesses,
    recommendations := recommendations,
    summary := String.intercalate " " summary_parts }

/-- `analyze_student_responses` (student_evaluation_agent/agent.py): look up
the session, build the analysis, and store the profile under the student
name (overwriting any prior profile).  `none` models the
`{"error": "Session not found"}` return. -/
def analyze_student_responses (session_id now : String) (s : SessionState) :
    Option Analysis × SessionState :=
  match dictGet s.evaluation_sessions session_id with
  | none => (none, s)
  | some session =>
    let analysis := buildAnalysis session session_id now
    let profile : StudentProfile :=
      { profile_created := now, last_evaluation := session_id,
        analysis := analysis, raw_answers := session.answers }
    (some analysis,
     { s with student_profiles :=
        dictInsert s.student_profiles session.student_name profile })

/-! ## student_evaluation_agent/agent.py: record_evaluation_answer -/

/-- Return dict of `record_evaluation_answer`, as a sum over its shapes. -/
inductive RecResult where
  | error (message : String)
  | completed (session_id : String) (total_answers : Nat) (analysis : Option Analysis)
  | continuing (session_id : String) (progress_percentage : ℚ)
      (question_number : Nat) (total_questions : Nat) (next_question : EvalQuestion)
deriving Repr, DecidableEq

/-- The `progress_percentage` carried by a `continuing` result (a sentinel for
the other shapes). -/
def RecResult.progressOf : RecResult → ℚ
  | .continuing _ p _ _ _ => p
  | _ => -1

/-- The in-place session mutation performed by `record_evaluation_answer`:
record the answer under the current question type and advance the index.
The question access `questions[current_index]` is guarded by the caller
(`current_index < len(questions)`), so `getD` never uses its default. -/
def advanceAnswers (session : EvalSession) (answer now : String) : EvalSession :=
  let current_question := session.questions.getD session.current_question_index default
  { session with
      answers := dictInsert session.answers current_question.qtype
        { question := current_question.question, answer := pyStrip answer,
          category := current_question.category, timestamp := now },
      current_question_index := session.current_question_index + 1 }

/-- The status/timestamp stamping applied to the session when the evaluation
completes. -/
def completeSession (session : EvalSession) (now : String) : EvalSession :=
  { session with
      status := "completed"
      completion_time := some now }

/-- `record_evaluation_answer` (student_evaluation_agent/agent.py).  On the
final answer the session is marked completed in the state and
`analyze_student_responses` runs on that state (in the source the session
dict is mutated in place, so the analysis sees the updated session). -/
def record_evaluation_answer (session_id answer now : String) (s : SessionState) :
    RecResult × SessionState :=
  match dictGet s.evaluation_sessions session_id with
  | none => (.error "Evaluation session not found", s)
  | some session =>
    if session.current_question_index ≥ session.questions.length then
      (.error "No more questions in this evaluation", s)
    else
      let session' := advanceAnswers session answer now
      if session'.current_question_index ≥ session.questions.length then
        let session'' := completeSession session' now
        let s1 := { s with
          evaluation_sessions := dictInsert s.evaluation_sessions session_id session'' }
        let ar := analyze_student_responses session_id now s1
        (.completed session_id session''.answers.length ar.1, ar.2)
      else
        let s1 := { s with
          evaluation_sessions := dictInsert s.evaluation_sessions session_id session' }
        (.continuing session_id
          (pyRound1 (((session'.current_question_index : ℚ) /
            (session.questions.length : ℚ)) * 100))
          (session'.current_question_index + 1) session.questions.length
          (session.questions.getD session'.current_question_index default), s1)

/-! ## progress_analyzer_agent/agent.py: calculate_overall_progress_score -/

/-- The fixed `engagement_mapping` dict. -/
def engagement_mapping : List (String × ℚ) :=
  [("high", 85), ("moderate", 70), ("low", 40), ("no_data", 50)]

/-- `calculate_overall_progress_score` (progress_analyzer_agent/agent.py).
The dict arguments are modelled by the values the source extracts from
them: `attendance_data.get("attendance_percentage", 0)`,
`mcq_data.get("average_score", 0)` and
`games_data.get("engagement_level", "no_data")`; `learning_progress` is
unused in the source and omitted. -/
def calculate_overall_progress_score (attendance_percentage average_score : ℚ)
    (engagement_level : String) : ℚ :=
  let scores : List ℚ :=
    [attendance_percentage * 0.4,
     average_score * 0.4,
     ((dictGet engagement_mapping engagement_level).getD 50) * 0.2]
  pyRound2 scores.sum

/-! ## Association-list and student-lookup lemmas -/

theorem dictGet_eq_none_iff {α : Type} (l : List (String × α)) (k : String) :
    dictGet l k = none ↔ k ∉ l.map Prod.fst := by
  induction l with
  | nil => simp
  | cons p rest ih =>
    obtain ⟨k', v⟩ := p
    by_cases h : k' = k
    · subst h
      simp [dictGet]
    · simp [dictGet, h, ih, Ne.symm h]

theorem dictInsert_map_fst_of_mem {α : Type} (l : List (String × α)) (k : String) (v : α)
    (h : k ∈ l.map Prod.fst) : (dictInsert l k v).map Prod.fst = l.map Prod.fst := by
  induction l with
  | nil => simp at h
  | cons p rest ih =>
    obtain ⟨k', v'⟩ := p
    by_cases h2 : k' = k
    · subst h2
      simp [dictInsert]
    · simp only [List.map_cons, List.mem_cons] at h
      rcases h with h | h

      · exact absurd h.symm h2
      · simp [dictInsert, h2, ih h]

theorem dictInsert_map_fst_of_not_mem {α : Type} (l : List (String × α)) (k : String) (v : α)
    (h : k ∉ l.map Prod.fst) : (dictInsert l k v).map Prod.fst = l.map Prod.fst ++ [k] := by
  induction l with
  | nil => simp [dictInsert]
  | cons p rest ih =>
    obtain ⟨k', v'⟩ := p
    simp only [List.map_cons, List.mem_cons] at h
    push_neg at h
    simp [dictInsert, Ne.symm h.1, ih h.2]

theorem dictInsert_nodup {α : Type} (l : List (String × α)) (k : String) (v : α)
    (h : (l.map Prod.fst).Nodup) : ((dictInsert l k v).map Prod.fst).Nodup := by
  by_cases hm : k ∈ l.map Prod.fst
  · rw [dictInsert_map_fst_of_mem l k v hm]
    exact h
  · rw [dictInsert_map_fst_of_not_mem l k v hm]
    rw [List.nodup_append]
    refine ⟨h, List.nodup_singleton k, ?_⟩
    intro a ha hb
    simp only [List.mem_singleton] at hb
    exact hm (hb ▸ ha)

theorem dictGet_filter_length_one {α : Type} (l : List (String × α)) (k : String) (v : α)
    (hnd : (l.map Prod.fst).Nodup) (h : dictGet l k = some v) :
    (l.filter (fun p => p.1 = k)).length = 1 := by
  induction l with
  | nil => simp [dictGet] at h
  | cons p rest ih =>
    obtain ⟨k', v'⟩ := p
    simp only [List.map_cons, List.nodup_cons] at hnd
    by_cases h2 : k' = k
    · subst h2
      have hrest : rest.filter (fun p => p.1 = k') = [] := by
        apply List.filter_eq_nil_iff.mpr
        intro p hp
        simp only [decide_eq_true_eq]
        intro hpk
        exact hnd.1 (hpk ▸ List.mem_map_of_mem Prod.fst hp)
      simp [List.filter, hrest]
    · simp only [dictGet, h2, if_false] at h
      simpa [List.filter, h2] using ih hnd.2 h

theorem findStudent_sound (db : List (String × Student)) (nl sid : String) (st : Student)
    (h : findStudent db nl = some (sid, st)) : pyLower st.name = nl := by
  induction db with
  | nil => simp [findStudent] at h
  | cons p rest ih =>
    obtain ⟨k', v'⟩ := p
    by_cases h2 : pyLower v'.name = nl
    · simp only [findStudent, h2, if_true, Option.some.injEq, Prod.mk.injEq] at h
      rw [← h.2]
      exact h2
    · simp only [findStudent, h2, if_false] at h
      exact ih h

theorem findStudent_dictInsert_of_none (db : List (String × Student)) (nl k : String)
    (v : Student) (hv : pyLower v.name = nl) (h : findStudent db nl = none) :
    findStudent (dictInsert db k v) nl = some (k, v) := by
  induction db with
  | nil => simp [dictInsert, findStudent, hv]
  | cons p rest ih =>
    obtain ⟨k', v'⟩ := p
    by_cases h2 : pyLower v'.name = nl
    · simp [findStudent, h2] at h
    · simp only [findStudent, h2, if_false] at h
      by_cases h3 : k' = k
      · subst h3
        simp [dictInsert, findStudent, hv]
      · simp [dictInsert, findStudent, h3, h2, ih h]

theorem findStudent_dictInsert_of_some (db : List (String × Student)) (nl sid : String)
    (st v : Student) (hv : pyLower v.name = nl)
    (h : findStudent db nl = some (sid, st)) :
    findStudent (dictInsert db sid v) nl = some (sid, v) := by
  induction db with
  | nil => simp [findStudent] at h
  | cons p rest ih =>
    obtain ⟨k', v'⟩ := p
    by_cases h2 : pyLower v'.name = nl
    · simp only [findStudent, h2, if_true, Option.some.injEq, Prod.mk.injEq] at h
      rw [← h.1]
      simp [dictInsert, findStudent, hv]
    · simp only [findStudent, h2, if_false] at h
      by_cases h3 : k' = sid
      · subst h3
        simp [dictInsert, findStudent, hv]
      · simp [dictInsert, findStudent, h3, h2, ih h]

theorem findStudent_dictGet (db : List (String × Student)) (nl sid : String) (st : Student)
    (hnd : (db.map Prod.fst).Nodup) (h : findStudent db nl = some (sid, st)) :
    dictGet db sid = some st := by
  induction db with
  | nil => simp [findStudent] at h
  | cons p rest ih =>
    obtain ⟨k', v'⟩ := p
    simp only [List.map_cons, List.nodup_cons] at hnd
    by_cases h2 : pyLower v'.name = nl
    · simp only [findStudent, h2, if_true, Option.some.injEq, Prod.mk.injEq] at h
      simp [dictGet, h.1, h.2]
    · simp only [findStudent, h2, if_false] at h
      have hmem : sid ∈ rest.map Prod.fst := by
        clear ih hnd
        induction rest with
        | nil => simp [findStudent] at h
        | cons q rest' ih' =>
          obtain ⟨k'', v''⟩ := q
          by_cases h3 : pyLower v''.name = nl
          · simp only [findStudent, h3, if_true, Option.some.injEq, Prod.mk.injEq] at h
            simp [h.1]
          · simp only [findStudent, h3, if_false] at h
            simp [ih' h]
      have : k' ≠ sid := fun he => hnd.1 (he ▸ hmem)
      simp [dictGet, this, ih hnd.2 h]

/-! ## Postcondition lemmas for save_attendance -/

/-- Well-formedness of the two attendance maps: no duplicate keys (holds for
every state the tools construct, since writes go through dict assignment). -/
abbrev WfMaps (s : SessionState) : Prop :=
  (s.students_database.map Prod.fst).Nodup ∧ (s.attendance_records.map Prod.fst).Nodup

theorem gradeUpdate_fst_name (db : List (String × Student)) (sid : String) (stud : Student)
    (g : Option String) : (gradeUpdate db sid stud g).1.name = stud.name := by
  cases g with
  | none => rfl
  | some gr =>
    by_cases h : gr ≠ "" ∧ stud.grade ≠ gr <;> simp [gradeUpdate, h]

theorem gradeUpdate_fst_days (db : List (String × Student)) (sid : String) (stud : Student)
    (g : Option String) :
    (gradeUpdate db sid stud g).1.total_attendance_days = stud.total_attendance_days := by
  cases g with
  | none => rfl
  | some gr =>
    by_cases h : gr ≠ "" ∧ stud.grade ≠ gr <;> simp [gradeUpdate, h]

theorem gradeUpdate_fst_last (db : List (String × Student)) (sid : String) (stud : Student)
    (g : Option String) :
    (gradeUpdate db sid stud g).1.last_attendance = stud.last_attendance := by
  cases g with
  | none => rfl
  | some gr =>
    by_cases h : gr ≠ "" ∧ stud.grade ≠ gr <;> simp [gradeUpdate, h]

theorem gradeUpdate_fst_grade (db : List (String × Student)) (sid : String) (stud : Student)
    (g : Option String) :
    (gradeUpdate db sid stud g).1.grade =
      match g with
      | some gr => if gr ≠ "" ∧ stud.grade ≠ gr then gr else stud.grade
      | none => stud.grade := by
  cases g with
  | none => rfl
  | some gr =>
    by_cases h : gr ≠ "" ∧ stud.grade ≠ gr <;> simp [gradeUpdate, h]

theorem gradeUpdate_snd_of_eq (db : List (String × Student)) (sid : String) (stud : Student)
    (g : Option String) (h : (gradeUpdate db sid stud g).1 = stud) :
    (gradeUpdate db sid stud g).2 = db := by
  cases g with
  | none => rfl
  | some gr =>
    by_cases h2 : gr ≠ "" ∧ stud.grade ≠ gr
    · exfalso
      have := congrArg Student.grade h
      simp [gradeUpdate, h2] at this
      exact h2.2 this.symm
    · simp [gradeUpdate, h2]

theorem gradeUpdate_snd_nodup (db : List (String × Student)) (sid : String) (stud : Student)
    (g : Option String) (h : (db.map Prod.fst).Nodup) :
    ((gradeUpdate db sid stud g).2.map Prod.fst).Nodup := by
  cases g with
  | none => exact h
  | some gr =>
    by_cases h2 : gr ≠ "" ∧ stud.grade ≠ gr
    · simp only [gradeUpdate]
      rw [if_pos h2]
      exact dictInsert_nodup _ _ _ h
    · simp only [gradeUpdate]
      rw [if_neg h2]
      exact h

theorem gradeUpdate_snd_frame (db : List (String × Student)) (sid : String) (stud : Student)
    (g : Option String) (k : String) (hk : sid ≠ k) :
    dictGet (gradeUpdate db sid stud g).2 k = dictGet db k := by
  cases g with
  | none => rfl
  | some gr =>
    by_cases h2 : gr ≠ "" ∧ stud.grade ≠ gr
    · simp only [gradeUpdate]
      rw [if_pos h2]
      exact dictGet_dictInsert_ne _ _ _ _ hk
    · simp only [gradeUpdate]
      rw [if_neg h2]

theorem findStudent_gradeUpdate (db : List (String × Student)) (nl sid : String)
    (stud : Student) (g : Option String) (h : findStudent db nl = some (sid, stud)) :
    findStudent (gradeUpdate db sid stud g).2 nl = some (sid, (gradeUpdate db sid stud g).1) := by
  have hnl : pyLower stud.name = nl := findStudent_sound db nl sid stud h
  cases g with
  | none => exact h
  | some gr =>
    by_cases h2 : gr ≠ "" ∧ stud.grade ≠ gr
    · simp only [gradeUpdate]
      rw [if_pos h2]
      exact findStudent_dictInsert_of_some db nl sid stud _ hnl h
    · simp only [gradeUpdate]
      rw [if_neg h2]
      exact h

theorem gradeUpdate_dictGet_self (db : List (String × Student)) (sid : String) (stud : Student)
    (g : Option String) (h : dictGet db sid = some stud) :
    dictGet (gradeUpdate db sid stud g).2 sid = some (gradeUpdate db sid stud g).1 := by
  cases g with
  | none => exact h
  | some gr =>
    by_cases h2 : gr ≠ "" ∧ stud.grade ≠ gr
    · simp only [gradeUpdate]
      rw [if_pos h2]
      exact dictGet_dictInsert_self _ _ _
    · simp only [gradeUpdate]
      rw [if_neg h2]
      exact h

/-- Reduction of `save_attendance` for a valid name and explicit non-empty
date when the student is not yet in the roster. -/
theorem save_attendance_create_eq (n : String) (g : Option String) (d today now : String)
    (s : SessionState) (hn : pyStrip n ≠ "") (hd : d ≠ "")
    (hfind : findStudent s.students_database (pyLower (pyTitle (pyStrip n))) = none) :
    save_attendance n g (some d) today now s =
      saveAttendanceTail ("student_" ++ pad4 (s.students_database.length + 1))
        (pyTitle (pyStrip n)) d now (mkNewStudent (pyTitle (pyStrip n)) g now s)
        (dictInsert s.students_database ("student_" ++ pad4 (s.students_database.length + 1))
          (mkNewStudent (pyTitle (pyStrip n)) g now s)) s := by
  unfold save_attendance
  simp only [resolveDate, if_neg hd, if_neg hn, hfind]

/-- Reduction of `save_attendance` for a valid name and explicit non-empty
date when the student is found in the roster. -/
theorem save_attendance_found_eq (n : String) (g : Option String) (d today now : String)
    (s : SessionState) (sid : String) (st : Student)
    (hn : pyStrip n ≠ "") (hd : d ≠ "")
    (hfind : findStudent s.students_database (pyLower (pyTitle (pyStrip n))) = some (sid, st)) :
    save_attendance n g (some d) today now s =
      saveAttendanceTail sid (pyTitle (pyStrip n)) d now
        (gradeUpdate s.students_database sid st g).1
        (gradeUpdate s.students_database sid st g).2 s := by
  unfold save_attendance
  simp only [resolveDate, if_neg hd, if_neg hn, hfind]

/-- Reduction of `saveAttendanceTail` when the record key is already bound:
the duplicate is reported as `info` with the existing record, the roster
update (already applied) is kept, and the records are untouched. -/
theorem saveAttendanceTail_dup_eq (sid name d now : String) (stud : Student)
    (db : List (String × Student)) (s : SessionState) (r : AttRecord)
    (hkey : dictGet s.attendance_records (d ++ "_" ++ sid) = some r) :
    saveAttendanceTail sid name d now stud db s =
      (.info ("Attendance already marked for " ++ name ++ " on " ++ d) r,
       { s with students_database := db }) := by
  unfold saveAttendanceTail
  simp only [hkey]

/-- After `saveAttendanceTail`, the looked-up student is present under its id,
the record key is bound, and the maps stay well-formed. -/
theorem saveAttendanceTail_post (sid name d now : String) (stud : Student)
    (db : List (String × Student)) (s : SessionState) (nl : String)
    (hf : findStudent db nl = some (sid, stud))
    (hdbnd : (db.map Prod.fst).Nodup)
    (hrecnd : (s.attendance_records.map Prod.fst).Nodup) :
    ∃ st' r,
      findStudent (saveAttendanceTail sid name d now stud db s).2.students_database nl =
        some (sid, st') ∧
      dictGet (saveAttendanceTail sid name d now stud db s).2.attendance_records
        (d ++ "_" ++ sid) = some r ∧
      WfMaps (saveAttendanceTail sid name d now stud db s).2 := by
  have hnl : pyLower stud.name = nl := findStudent_sound db nl sid stud hf
  unfold saveAttendanceTail
  cases hkey : dictGet s.attendance_records (d ++ "_" ++ sid) with
  | some r =>
    refine ⟨stud, r, by simp [hkey, hf], by simp [hkey], ?_⟩
    simp only [hkey]
    exact ⟨hdbnd, hrecnd⟩
  | none =>
    simp only [hkey]
    exact ⟨_, _, findStudent_dictInsert_of_some db nl sid stud _ hnl hf,
      dictGet_dictInsert_self _ _ _,
      dictInsert_nodup _ _ _ hdbnd, dictInsert_nodup _ _ _ hrecnd⟩

/-- After any valid `save_attendance` call with an explicit non-empty date,
the (normalized) student resolves in the roster to some id `sid`, the record
key `date_sid` is bound in `attendance_records`, and the maps stay
well-formed. -/
theorem save_attendance_post (n : String) (g : Option String) (d today now : String)
    (s : SessionState) (hn : pyStrip n ≠ "") (hd : d ≠ "") (hwf : WfMaps s) :
    ∃ sid st r,
      findStudent (save_attendance n g (some d) today now s).2.students_database
        (pyLower (pyTitle (pyStrip n))) = some (sid, st) ∧
      dictGet (save_attendance n g (some d) today now s).2.attendance_records
        (d ++ "_" ++ sid) = some r ∧
      WfMaps (save_attendance n g (some d) today now s).2 := by
  obtain ⟨hdbnd, hrecnd⟩ := hwf
  cases hfind : findStudent s.students_database (pyLower (pyTitle (pyStrip n))) with
  | none =>
    rw [save_attendance_create_eq n g d today now s hn hd hfind]
    obtain ⟨st', r, h1, h2, h3⟩ := saveAttendanceTail_post _ (pyTitle (pyStrip n)) d now _ _ s
      (pyLower (pyTitle (pyStrip n)))
      (findStudent_dictInsert_of_none s.students_database _ _
        (mkNewStudent (pyTitle (pyStrip n)) g now s) rfl hfind)
      (dictInsert_nodup _ _ _ hdbnd) hrecnd
    exact ⟨_, st', r, h1, h2, h3⟩
  | some p =>
    obtain ⟨sid, st⟩ := p
    rw [save_attendance_found_eq n g d today now s sid st hn hd hfind]
    obtain ⟨st', r, h1, h2, h3⟩ := saveAttendanceTail_post sid (pyTitle (pyStrip n)) d now _ _ s
      (pyLower (pyTitle (pyStrip n)))
      (findStudent_gradeUpdate s.students_database _ sid st g hfind)
      (gradeUpdate_snd_nodup s.students_database sid st g hdbnd) hrecnd
    exact ⟨sid, st', r, h1, h2, h3⟩

/-! ## Reduction lemmas for the evaluation tools -/

/-- `analyze_student_responses` when the session exists: return the built
analysis and store the profile under the student name. -/
theorem analyze_found_eq (session_id now : String) (s : SessionState) (sess : EvalSession)
    (h : dictGet s.evaluation_sessions session_id = some sess) :
    analyze_student_responses session_id now s =
      (some (buildAnalysis sess session_id now),
       { s with
          student_profiles :=
            dictInsert s.student_profiles sess.student_name
              { profile_created := now
                last_evaluation := session_id
                analysis := buildAnalysis sess session_id now
                raw_answers := sess.answers } }) := by
  unfold analyze_student_responses
  rw [h]

/-- `analyze_student_responses` never touches `evaluation_sessions`. -/
theorem analyze_preserves_sessions (session_id now : String) (s : SessionState) :
    (analyze_student_responses session_id now s).2.evaluation_sessions =
      s.evaluation_sessions := by
  unfold analyze_student_responses
  cases h : dictGet s.evaluation_sessions session_id <;> rfl

/-- Reduction of `record_evaluation_answer` in the continuing branch (answer
recorded, index advanced, more questions left). -/
theorem record_answer_continuing_eq (session_id answer now : String) (s : SessionState)
    (sess : EvalSession)
    (h1 : dictGet s.evaluation_sessions session_id = some sess)
    (h2 : sess.current_question_index + 1 < sess.questions.length) :
    record_evaluation_answer session_id answer now s =
      (.continuing session_id
        (pyRound1 ((((advanceAnswers sess answer now).current_question_index : ℚ) /
          (sess.questions.length : ℚ)) * 100))
        ((advanceAnswers sess answer now).current_question_index + 1)
        sess.questions.length
        (sess.questions.getD (advanceAnswers sess answer now).current_question_index default),
       { s with evaluation_sessions :=
          dictInsert s.evaluation_sessions session_id (advanceAnswers sess answer now) }) := by
  unfold record_evaluation_answer
  simp only [h1]
  have hi : ¬(sess.current_question_index ≥ sess.questions.length) := by omega
  rw [if_neg hi]
  have hc : ¬((advanceAnswers sess answer now).current_question_index ≥
      sess.questions.length) := by
    show ¬(sess.current_question_index + 1 ≥ sess.questions.length)
    omega
  rw [if_neg hc]

/-- Reduction of `record_evaluation_answer` in the completed branch (the
answered question was the last one): the session is completed in the state
and the analysis pass runs on that updated state. -/
theorem record_answer_completed_eq (session_id answer now : String) (s : SessionState)
    (sess : EvalSession)
    (h1 : dictGet s.evaluation_sessions session_id = some sess)
    (h2 : sess.current_question_index < sess.questions.length)
    (h3 : sess.questions.length ≤ sess.current_question_index + 1) :
    record_evaluation_answer session_id answer now s =
      (.completed session_id
        (completeSession (advanceAnswers sess answer now) now).answers.length
        (analyze_student_responses session_id now
          { s with
             evaluation_sessions :=
               dictInsert s.evaluation_sessions session_id
                 (completeSession (advanceAnswers sess answer now) now) }).1,
       (analyze_student_responses session_id now
         { s with
            evaluation_sessions :=
              dictInsert s.evaluation_sessions session_id
                (completeSession (advanceAnswers sess answer now) now) }).2) := by
  unfold record_evaluation_answer
  simp only [h1]
  have hi : ¬(sess.current_question_index ≥ sess.questions.length) := by omega
  rw [if_neg hi]
  have hc : (advanceAnswers sess answer now).current_question_index ≥
      sess.questions.length := by
    show sess.current_question_index + 1 ≥ sess.questions.length
    omega
  rw [if_pos hc]

/-- Char-wise lower-casing preserves substring containment when the needle is
already lower-case. -/
theorem pyIn_pyLower (needle hay : String)
    (hmap : needle.data.map Char.toLower = needle.data)
    (h : pyIn needle hay) : pyIn needle (pyLower hay) := by
  obtain ⟨pre, post, heq⟩ := h
  refine ⟨pre.map Char.toLower, post.map Char.toLower, ?_⟩
  show pre.map Char.toLower ++ needle.data ++ post.map Char.toLower =
    hay.data.map Char.toLower
  rw [← heq]
  simp [List.map_append, hmap]

/-- The first branch of the `emotional_stability` keyword chain. -/
theorem emotionalStabilityOf_frustrated (emotional_response : String)
    (h : pyIn "frustrated" emotional_response) :
    emotionalStabilityOf emotional_response = "needs_support" := by
  unfold emotionalStabilityOf
  rw [if_pos (Or.inl h)]

/-- The emotional-stability field of a built analysis is the keyword chain
applied to the lower-cased emotional-response answer. -/
theorem buildAnalysis_emotional_stability (sess : EvalSession) (session_id now : String) :
    (buildAnalysis sess session_id now).emotional_analysis.emotional_stability =
      emotionalStabilityOf (pyLower (answerText sess.answers "emotional_response")) := rfl

/-- The percentage field of a summary is the rounded ratio of its own day
counts. -/
theorem mkAttSummary_pct (student_id : String) (recs : List AttRecord) :
    (mkAttSummary student_id recs).attendance_percentage =
      pyRound2 (if (mkAttSummary student_id recs).total_days > 0 then
        ((mkAttSummary student_id recs).present_days : ℚ) /
          ((mkAttSummary student_id recs).total_days : ℚ) * 100
      else 0) := rfl

/-- With no qualifying records the percentage is exactly 0. -/
theorem mkAttSummary_zero (student_id : String) (recs : List AttRecord)
    (h : recs.length = 0) :
    (mkAttSummary student_id recs).attendance_percentage = 0 := by
  simp only [mkAttSummary]
  rw [if_neg (by omega)]
  norm_num [pyRound2, roundHalfEven]

/-! ## Claim theorems -/

/-- C3: for every session state and interaction-log append, the stored
`interaction_history` after `log_interaction` is exactly the last 100 of the
old history extended by the new entry: its length never exceeds 100, it is a
suffix of the appended list (so the retained entries are the most recent
ones in original append order, oldest dropped first), and it keeps
`min (length + 1) 100` entries. -/
theorem c3_interaction_history_capped (interaction_type details now : String)
    (s : SessionState) :
    (log_interaction interaction_type details now s).interaction_history =
      (s.interaction_history ++ [logEntry interaction_type details now s]).drop
        ((s.interaction_history ++ [logEntry interaction_type details now s]).length - 100) ∧
    (log_interaction interaction_type details now s).interaction_history.length ≤ 100 ∧
    (log_interaction interaction_type details now s).interaction_history <:+
      s.interaction_history ++ [logEntry interaction_type details now s] ∧
    (log_interaction interaction_type details now s).interaction_history.length =
      min (s.interaction_history.length + 1) 100 := by
  have heq : (log_interaction interaction_type details now s).interaction_history =
      (s.interaction_history ++ [logEntry interaction_type details now s]).drop
        ((s.interaction_history ++ [logEntry interaction_type details now s]).length - 100) := by
    simp only [log_interaction]
    by_cases h : (s.interaction_history ++ [logEntry interaction_type details now s]).length > 100
    · rw [if_pos h]
    · rw [if_neg h]
      have h0 : (s.interaction_history ++
          [logEntry interaction_type details now s]).length - 100 = 0 := by omega
      rw [h0, List.drop_zero]
  refine ⟨heq, ?_, ?_, ?_⟩
  · rw [heq]
    simp only [List.length_drop, List.length_append, List.length_singleton]
    omega
  · rw [heq]
    exact List.drop_suffix _ _
  · rw [heq]
    simp only [List.length_drop, List.length_append, List.length_singleton]
    omega

/-- C4: the overall progress score is exactly
`round2(0.4 * attendance + 0.4 * quiz + 0.2 * engagement)` where the
engagement mapping sends high to 85, moderate to 70, low to 40 and no_data
to 50; in particular 90% attendance, 80% quiz average and high engagement
score 85. -/
theorem c4_overall_progress_score :
    (∀ (a m : ℚ) (e : String),
      calculate_overall_progress_score a m e =
        pyRound2 (0.4 * a + 0.4 * m +
          0.2 * ((dictGet engagement_mapping e).getD 50))) ∧
    (dictGet engagement_mapping "high").getD 50 = 85 ∧
    (dictGet engagement_mapping "moderate").getD 50 = 70 ∧
    (dictGet engagement_mapping "low").getD 50 = 40 ∧
    (dictGet engagement_mapping "no_data").getD 50 = 50 ∧
    calculate_overall_progress_score 90 80 "high" = 85 := by
  refine ⟨?_, by decide, by decide, by decide, by decide, ?_⟩
  swap
  · norm_num [calculate_overall_progress_score, pyRound2, roundHalfEven, engagement_mapping,
      dictGet]
  intro a m e
  unfold calculate_overall_progress_score
  simp only [List.sum_cons, List.sum_nil]
  exact congrArg pyRound2 (by ring)

/-- C10: clearing the `attendance` data type empties `attendance_records`
while leaving `students_database` (hence every roster entry with its
`total_attendance_days` and `last_attendance`) untouched; consequently
after saving attendance for John Smith and then clearing, the roster still
counts 1 attendance day while 0 records remain for that student. -/
theorem c10_clear_attendance_frame :
    (∀ (now : String) (s : SessionState),
      (clear_user_data "attendance" now s).attendance_records = [] ∧
      (clear_user_data "attendance" now s).students_database = s.students_database) ∧
    ((dictGet (clear_user_data "attendance" "T2"
        (save_attendance "John Smith" none (some "2024-01-10") "2024-01-10" "T1"
          emptyState).2).students_database "student_0001").map
      (fun st => st.total_attendance_days)) = some 1 ∧
    ((clear_user_data "attendance" "T2"
        (save_attendance "John Smith" none (some "2024-01-10") "2024-01-10" "T1"
          emptyState).2).attendance_records.filter
      (fun p => p.2.student_id = "student_0001")).length = 0 := by
  refine ⟨fun now s => ⟨rfl, rfl⟩, by decide, by decide⟩

/-- C1: starting from a well-formed state, after a first valid
`save_attendance` for a student there is a record key `date_sid` bound in
`attendance_records`; a second call on the same date with a
case-insensitively matching name returns `status=info` carrying exactly that
existing record, leaves `attendance_records` unchanged, and exactly one
record is stored under that (date, student) key. -/
theorem c1_duplicate_save_single_record (n1 n2 : String) (g1 g2 : Option String)
    (d today1 today2 now1 now2 : String) (s : SessionState)
    (hn1 : pyStrip n1 ≠ "") (hn2 : pyStrip n2 ≠ "") (hd : d ≠ "")
    (hmatch : pyLower (pyTitle (pyStrip n2)) = pyLower (pyTitle (pyStrip n1)))
    (hwf : WfMaps s) :
    ∃ sid r,
      dictGet (save_attendance n1 g1 (some d) today1 now1 s).2.attendance_records
        (d ++ "_" ++ sid) = some r ∧
      (save_attendance n2 g2 (some d) today2 now2
          (save_attendance n1 g1 (some d) today1 now1 s).2).1 =
        SaveResult.info
          ("Attendance already marked for " ++ pyTitle (pyStrip n2) ++ " on " ++ d) r ∧
      (save_attendance n2 g2 (some d) today2 now2
          (save_attendance n1 g1 (some d) today1 now1 s).2).2.attendance_records =
        (save_attendance n1 g1 (some d) today1 now1 s).2.attendance_records ∧
      ((save_attendance n2 g2 (some d) today2 now2
          (save_attendance n1 g1 (some d) today1 now1 s).2).2.attendance_records.filter
        (fun p => p.1 = d ++ "_" ++ sid)).length = 1 := by
  obtain ⟨sid, st, r, h1, h2, h3⟩ := save_attendance_post n1 g1 d today1 now1 s hn1 hd hwf
  have hfind2 : findStudent (save_attendance n1 g1 (some d) today1 now1 s).2.students_database
      (pyLower (pyTitle (pyStrip n2))) = some (sid, st) := by
    rw [hmatch]
    exact h1
  refine ⟨sid, r, h2, ?_, ?_, ?_⟩
  all_goals rw [save_attendance_found_eq n2 g2 d today2 now2 _ sid st hn2 hd hfind2,
    saveAttendanceTail_dup_eq _ _ _ _ _ _ _ r h2]
  exact dictGet_filter_length_one _ _ r h3.2 h2

/-- C1 witness: the theorem applied to "john smith" / "John Smith" on the
same date from the empty state. -/
theorem c1_duplicate_save_single_record_witness :
    (pyStrip "john smith" ≠ "" ∧ pyStrip "John Smith" ≠ "" ∧
      ("2024-01-10" : String) ≠ "" ∧
      pyLower (pyTitle (pyStrip "John Smith")) = pyLower (pyTitle (pyStrip "john smith")) ∧
      WfMaps emptyState) ∧
    (∃ sid r,
      dictGet (save_attendance "john smith" none (some "2024-01-10") "2024-01-10" "T1"
          emptyState).2.attendance_records ("2024-01-10" ++ "_" ++ sid) = some r ∧
      (save_attendance "John Smith" none (some "2024-01-10") "2024-01-10" "T2"
          (save_attendance "john smith" none (some "2024-01-10") "2024-01-10" "T1"
            emptyState).2).1 =
        SaveResult.info
          ("Attendance already marked for " ++ pyTitle (pyStrip "John Smith") ++ " on " ++
            "2024-01-10") r ∧
      (save_attendance "John Smith" none (some "2024-01-10") "2024-01-10" "T2"
          (save_attendance "john smith" none (some "2024-01-10") "2024-01-10" "T1"
            emptyState).2).2.attendance_records =
        (save_attendance "john smith" none (some "2024-01-10") "2024-01-10" "T1"
          emptyState).2.attendance_records ∧
      ((save_attendance "John Smith" none (some "2024-01-10") "2024-01-10" "T2"
          (save_attendance "john smith" none (some "2024-01-10") "2024-01-10" "T1"
            emptyState).2).2.attendance_records.filter
        (fun p => p.1 = "2024-01-10" ++ "_" ++ sid)).length = 1) :=
  ⟨⟨by decide, by decide, by decide, by decide, by decide⟩,
   c1_duplicate_save_single_record "john smith" "John Smith" none none "2024-01-10"
     "2024-01-10" "2024-01-10" "T1" "T2" emptyState (by decide) (by decide) (by decide)
     (by decide) (by decide)⟩

/-- Concrete roster entry used to refute C2 as stated. -/
def c2Student : Student :=
  { name := "John Smith", grade := "5", created_date := "T0",
    total_attendance_days := 1, created_by := "system",
    last_attendance := some "2024-01-10" }

/-- Concrete attendance record used to refute C2 as stated. -/
def c2Record : AttRecord :=
  { student_id := "student_0001", student_name := "John Smith", grade := "5",
    date := "2024-01-10", status := "present", timestamp := "T0",
    marked_by := "system" }

/-- Concrete session state used to refute C2 as stated: John Smith (grade 5)
already has a record for 2024-01-10. -/
def c2State : SessionState :=
  { emptyState with
      students_database := [("student_0001", c2Student)],
      attendance_records := [("2024-01-10_student_0001", c2Record)] }

/-- C2 counterexample: a second `save_attendance` for an already-marked
(date, student) pair is not a complete no-op on the student entry — passing
a different grade ("6" against stored "5") returns `status=info` but still
rewrites the stored grade. -/
theorem c2_counterexample_grade_updated_on_duplicate :
    (save_attendance "John Smith" (some "6") (some "2024-01-10") "2024-01-10" "T1"
        c2State).1.status = "info" ∧
    dictGet (save_attendance "John Smith" (some "6") (some "2024-01-10") "2024-01-10" "T1"
        c2State).2.students_database "student_0001" =
      some { c2Student with grade := "6" } ∧
    (save_attendance "John Smith" (some "6") (some "2024-01-10") "2024-01-10" "T1"
        c2State).2.students_database ≠ c2State.students_database := by
  refine ⟨by decide, by decide, by decide⟩

/-- C2 (amended): a second `save_attendance` for an existing (date, student)
key returns `info` with the existing record and leaves `attendance_records`
and the student entry's `total_attendance_days`, `last_attendance` and name
unchanged, and leaves the whole roster unchanged whenever no new non-empty
differing grade is supplied; a different non-empty grade updates only the
entry's grade field. -/
theorem c2_amended_second_save_frame (n : String) (g : Option String)
    (d today now : String) (s : SessionState) (sid : String) (st : Student) (r : AttRecord)
    (hn : pyStrip n ≠ "") (hd : d ≠ "")
    (hfind : findStudent s.students_database (pyLower (pyTitle (pyStrip n))) = some (sid, st))
    (hget : dictGet s.students_database sid = some st)
    (hkey : dictGet s.attendance_records (d ++ "_" ++ sid) = some r) :
    (save_attendance n g (some d) today now s).1 =
      SaveResult.info
        ("Attendance already marked for " ++ pyTitle (pyStrip n) ++ " on " ++ d) r ∧
    (save_attendance n g (some d) today now s).2.attendance_records =
      s.attendance_records ∧
    (∃ st',
      dictGet (save_attendance n g (some d) today now s).2.students_database sid =
        some st' ∧
      st'.name = st.name ∧
      st'.total_attendance_days = st.total_attendance_days ∧
      st'.last_attendance = st.last_attendance ∧
      st'.grade = (match g with
        | some gr => if gr ≠ "" ∧ st.grade ≠ gr then gr else st.grade
        | none => st.grade)) ∧
    (∀ k, sid ≠ k →
      dictGet (save_attendance n g (some d) today now s).2.students_database k =
        dictGet s.students_database k) ∧
    (gradeTruthy g = false ∨ g = some st.grade →
      (save_attendance n g (some d) today now s).2.students_database =
        s.students_database) := by
  rw [save_attendance_found_eq n g d today now s sid st hn hd hfind,
    saveAttendanceTail_dup_eq _ _ _ _ _ _ _ r hkey]
  refine ⟨rfl, rfl,
    ⟨(gradeUpdate s.students_database sid st g).1,
      gradeUpdate_dictGet_self _ _ _ _ hget, gradeUpdate_fst_name _ _ _ _,
      gradeUpdate_fst_days _ _ _ _, gradeUpdate_fst_last _ _ _ _,
      gradeUpdate_fst_grade _ _ _ _⟩,
    fun k hk => gradeUpdate_snd_frame _ _ _ _ k hk, ?_⟩
  intro hng
  cases g with
  | none => rfl
  | some gr =>
    have hcond : ¬(gr ≠ "" ∧ st.grade ≠ gr) := by
      rcases hng with hng | hng
      · simp only [gradeTruthy, ne_eq, decide_eq_false_iff_not, not_not] at hng
        exact fun hc => hc.1 hng
      · have hgr : gr = st.grade := Option.some.inj hng
        exact fun hc => hc.2 hgr.symm
    show (gradeUpdate s.students_database sid st (some gr)).2 = s.students_database
    simp only [gradeUpdate]
    rw [if_neg hcond]

/-- C2 witness: the amended theorem applied to the concrete duplicate save
with a differing grade. -/
theorem c2_amended_second_save_frame_witness :
    (pyStrip "John Smith" ≠ "" ∧ ("2024-01-10" : String) ≠ "" ∧
      findStudent c2State.students_database (pyLower (pyTitle (pyStrip "John Smith"))) =
        some ("student_0001", c2Student) ∧
      dictGet c2State.students_database "student_0001" = some c2Student ∧
      dictGet c2State.attendance_records ("2024-01-10" ++ "_" ++ "student_0001") =
        some c2Record) ∧
    ((save_attendance "John Smith" (some "6") (some "2024-01-10") "2024-01-10" "T1"
        c2State).1 =
      SaveResult.info
        ("Attendance already marked for " ++ pyTitle (pyStrip "John Smith") ++ " on " ++
          "2024-01-10") c2Record ∧
    (save_attendance "John Smith" (some "6") (some "2024-01-10") "2024-01-10" "T1"
        c2State).2.attendance_records = c2State.attendance_records ∧
    (∃ st',
      dictGet (save_attendance "John Smith" (some "6") (some "2024-01-10") "2024-01-10" "T1"
          c2State).2.students_database "student_0001" = some st' ∧
      st'.name = c2Student.name ∧
      st'.total_attendance_days = c2Student.total_attendance_days ∧
      st'.last_attendance = c2Student.last_attendance ∧
      st'.grade = (match (some "6" : Option String) with
        | some gr => if gr ≠ "" ∧ c2Student.grade ≠ gr then gr else c2Student.grade
        | none => c2Student.grade)) ∧
    (∀ k, "student_0001" ≠ k →
      dictGet (save_attendance "John Smith" (some "6") (some "2024-01-10") "2024-01-10" "T1"
          c2State).2.students_database k = dictGet c2State.students_database k) ∧
    (gradeTruthy (some "6") = false ∨ (some "6" : Option String) = some c2Student.grade →
      (save_attendance "John Smith" (some "6") (some "2024-01-10") "2024-01-10" "T1"
          c2State).2.students_database = c2State.students_database)) :=
  ⟨⟨by decide, by decide, by decide, by decide, by decide⟩,
   c2_amended_second_save_frame "John Smith" (some "6") "2024-01-10" "2024-01-10" "T1"
     c2State "student_0001" c2Student c2Record (by decide) (by decide) (by decide)
     (by decide) (by decide)⟩

/-- C7: the three-step scenario from the empty state: saving "john smith"
with no grade creates roster entry `student_0001` with grade "Not
specified"; saving "John Smith" again the same day returns `info` with the
very record stored by the first call; saving "John Smith" the next day
succeeds under the new date key and the roster attendance counter becomes
2. -/
theorem c7_scenario_john_smith :
    (save_attendance "john smith" none (some "2024-01-10") "2024-01-10" "T1"
        emptyState).1.status = "success" ∧
    dictGet (save_attendance "john smith" none (some "2024-01-10") "2024-01-10" "T1"
        emptyState).2.students_database "student_0001" =
      some { name := "John Smith", grade := "Not specified", created_date := "T1",
             total_attendance_days := 1, created_by := "system",
             last_attendance := some "2024-01-10" } ∧
    (save_attendance "John Smith" none (some "2024-01-10") "2024-01-10" "T2"
        (save_attendance "john smith" none (some "2024-01-10") "2024-01-10" "T1"
          emptyState).2).1 =
      SaveResult.info "Attendance already marked for John Smith on 2024-01-10"
        { student_id := "student_0001", student_name := "John Smith",
          grade := "Not specified", date := "2024-01-10", status := "present",
          timestamp := "T1", marked_by := "system" } ∧
    dictGet (save_attendance "john smith" none (some "2024-01-10") "2024-01-10" "T1"
        emptyState).2.attendance_records "2024-01-10_student_0001" =
      some { student_id := "student_0001", student_name := "John Smith",
             grade := "Not specified", date := "2024-01-10", status := "present",
             timestamp := "T1", marked_by := "system" } ∧
    (save_attendance "John Smith" none (some "2024-01-11") "2024-01-11" "T3"
        (save_attendance "John Smith" none (some "2024-01-10") "2024-01-10" "T2"
          (save_attendance "john smith" none (some "2024-01-10") "2024-01-10" "T1"
            emptyState).2).2).1.status = "success" ∧
    dictGet (save_attendance "John Smith" none (some "2024-01-11") "2024-01-11" "T3"
        (save_attendance "John Smith" none (some "2024-01-10") "2024-01-10" "T2"
          (save_attendance "john smith" none (some "2024-01-10") "2024-01-10" "T1"
            emptyState).2).2).2.attendance_records "2024-01-11_student_0001" =
      some { student_id := "student_0001", student_name := "John Smith",
             grade := "Not specified", date := "2024-01-11", status := "present",
             timestamp := "T3", marked_by := "system" } ∧
    ((dictGet (save_attendance "John Smith" none (some "2024-01-11") "2024-01-11" "T3"
        (save_attendance "John Smith" none (some "2024-01-10") "2024-01-10" "T2"
          (save_attendance "john smith" none (some "2024-01-10") "2024-01-10" "T1"
            emptyState).2).2).2.students_database "student_0001").map
      (fun st => st.total_attendance_days)) = some 2 := by
  refine ⟨by decide, by decide, by decide, by decide, by decide, by decide, by decide⟩

/-- Concrete in-progress evaluation session used for C5 (the real
15-question questionnaire, no answers yet). -/
def c5Session : EvalSession :=
  { session_id := "eval_1", student_name := "Test Student", start_time := "T0",
    questions := evaluation_questions "Test Student", current_question_index := 0,
    answers := [], status := "in_progress", completion_time := none,
    evaluator := "system" }

/-- Concrete session state holding `c5Session`. -/
def c5State : SessionState :=
  { emptyState with evaluation_sessions := [("eval_1", c5Session)] }

/-- C5 counterexample: answering the first of the 15 questions returns
progress `round(1/15*100, 1) = 6.7`, which differs from the claimed
`index / total × 100 = 100/15`; moreover the answer is stored stripped, not
verbatim. -/
theorem c5_counterexample_progress_rounded :
    (record_evaluation_answer "eval_1" " ten " "T1" c5State).1.progressOf =
      pyRound1 ((1 : ℚ) / 15 * 100) ∧
    pyRound1 ((1 : ℚ) / 15 * 100) = 67 / 10 ∧
    (67 / 10 : ℚ) ≠ (1 : ℚ) / 15 * 100 ∧
    ((dictGet (advanceAnswers c5Session " ten " "T1").answers "age").map
      (fun e => e.answer)) = some "ten" ∧
    ("ten" : String) ≠ " ten " := by
  refine ⟨?_, by norm_num [pyRound1, roundHalfEven], by norm_num, by decide, by decide⟩
  rw [record_answer_continuing_eq "eval_1" " ten " "T1" c5State c5Session rfl (by decide)]
  show pyRound1 ((((advanceAnswers c5Session " ten " "T1").current_question_index : ℚ) /
      ((c5Session.questions.length : ℚ))) * 100) = pyRound1 ((1 : ℚ) / 15 * 100)
  have h1 : (advanceAnswers c5Session " ten " "T1").current_question_index = 1 := by decide
  have h2 : c5Session.questions.length = 15 := by decide
  rw [h1, h2]
  norm_num

/-- C5 (amended): for an in-progress session, `record_evaluation_answer`
stores the (stripped) answer under the current question type key and
advances the index; when the new index reaches the question count the
stored session is completed with a completion timestamp and the analysis
pass runs on that state; otherwise the next question is returned with
progress `round(index / total × 100, 1)`. -/
theorem c5_amended_record_answer (session_id answer now : String) (s : SessionState)
    (sess : EvalSession)
    (h1 : dictGet s.evaluation_sessions session_id = some sess)
    (h2 : sess.current_question_index < sess.questions.length) :
    ∃ sess2,
      dictGet (record_evaluation_answer session_id answer now s).2.evaluation_sessions
        session_id = some sess2 ∧
      sess2.current_question_index = sess.current_question_index + 1 ∧
      dictGet sess2.answers
          ((sess.questions.getD sess.current_question_index default).qtype) =
        some { question := (sess.questions.getD sess.current_question_index default).question
               answer := pyStrip answer
               category := (sess.questions.getD sess.current_question_index default).category
               timestamp := now } ∧
      (sess.current_question_index + 1 = sess.questions.length →
        sess2.status = "completed" ∧
        sess2.completion_time = some now ∧
        (record_evaluation_answer session_id answer now s).1 =
          RecResult.completed session_id sess2.answers.length
            (analyze_student_responses session_id now
              { s with
                 evaluation_sessions :=
                   dictInsert s.evaluation_sessions session_id sess2 }).1 ∧
        (record_evaluation_answer session_id answer now s).2 =
          (analyze_student_responses session_id now
            { s with
               evaluation_sessions :=
                 dictInsert s.evaluation_sessions session_id sess2 }).2) ∧
      (sess.current_question_index + 1 < sess.questions.length →
        sess2.status = sess.status ∧
        (record_evaluation_answer session_id answer now s).1 =
          RecResult.continuing session_id
            (pyRound1 ((((sess.current_question_index + 1 : Nat) : ℚ) /
              (sess.questions.length : ℚ)) * 100))
            (sess.current_question_index + 2) sess.questions.length
            (sess.questions.getD (sess.current_question_index + 1) default)) := by
  by_cases hb : sess.current_question_index + 1 < sess.questions.length
  · rw [record_answer_continuing_eq session_id answer now s sess h1 hb]
    refine ⟨advanceAnswers sess answer now, dictGet_dictInsert_self _ _ _, rfl, ?_, ?_, ?_⟩
    · exact dictGet_dictInsert_self _ _ _
    · intro he
      omega
    · intro _
      exact ⟨rfl, rfl⟩
  · rw [record_answer_completed_eq session_id answer now s sess h1 h2 (by omega)]
    refine ⟨completeSession (advanceAnswers sess answer now) now, ?_, rfl, ?_, ?_, ?_⟩
    · rw [analyze_preserves_sessions]
      exact dictGet_dictInsert_self _ _ _
    · exact dictGet_dictInsert_self _ _ _
    · intro _
      exact ⟨rfl, rfl, rfl, rfl⟩
    · intro hlt
      omega

/-- C5 witness: the amended theorem applied to the concrete first answer of
the 15-question session. -/
theorem c5_amended_record_answer_witness :
    (dictGet c5State.evaluation_sessions "eval_1" = some c5Session ∧
      c5Session.current_question_index < c5Session.questions.length) ∧
    (∃ sess2,
      dictGet (record_evaluation_answer "eval_1" " ten " "T1" c5State).2.evaluation_sessions
        "eval_1" = some sess2 ∧
      sess2.current_question_index = c5Session.current_question_index + 1 ∧
      dictGet sess2.answers
          ((c5Session.questions.getD c5Session.current_question_index default).qtype) =
        some { question :=
                 (c5Session.questions.getD c5Session.current_question_index default).question
               answer := pyStrip " ten "
               category :=
                 (c5Session.questions.getD c5Session.current_question_index default).category
               timestamp := "T1" } ∧
      (c5Session.current_question_index + 1 = c5Session.questions.length →
        sess2.status = "completed" ∧
        sess2.completion_time = some "T1" ∧
        (record_evaluation_answer "eval_1" " ten " "T1" c5State).1 =
          RecResult.completed "eval_1" sess2.answers.length
            (analyze_student_responses "eval_1" "T1"
              { c5State with
                 evaluation_sessions :=
                   dictInsert c5State.evaluation_sessions "eval_1" sess2 }).1 ∧
        (record_evaluation_answer "eval_1" " ten " "T1" c5State).2 =
          (analyze_student_responses "eval_1" "T1"
            { c5State with
               evaluation_sessions :=
                 dictInsert c5State.evaluation_sessions "eval_1" sess2 }).2) ∧
      (c5Session.current_question_index + 1 < c5Session.questions.length →
        sess2.status = c5Session.status ∧
        (record_evaluation_answer "eval_1" " ten " "T1" c5State).1 =
          RecResult.continuing "eval_1"
            (pyRound1 ((((c5Session.current_question_index + 1 : Nat) : ℚ) /
              (c5Session.questions.length : ℚ)) * 100))
            (c5Session.current_question_index + 2) c5Session.questions.length
            (c5Session.questions.getD (c5Session.current_question_index + 1) default))) :=
  ⟨⟨rfl, by decide⟩,
   c5_amended_record_answer "eval_1" " ten " "T1" c5State c5Session rfl (by decide)⟩

/-- Concrete roster entry for the C6 counterexample. -/
def c6Student : Student :=
  { name := "Amy", grade := "4", created_date := "T0",
    total_attendance_days := 3, created_by := "system",
    last_attendance := some "D3" }

/-- First qualifying record for C6 (present). -/
def c6Rec1 : AttRecord :=
  { student_id := "student_0001", student_name := "Amy", grade := "4",
    date := "D1", status := "present", timestamp := "T1", marked_by := "system" }

/-- Second qualifying record for C6 (non-present status). -/
def c6Rec2 : AttRecord :=
  { student_id := "student_0001", student_name := "Amy", grade := "4",
    date := "D2", status := "absent", timestamp := "T2", marked_by := "system" }

/-- Third qualifying record for C6 (non-present status). -/
def c6Rec3 : AttRecord :=
  { student_id := "student_0001", student_name := "Amy", grade := "4",
    date := "D3", status := "absent", timestamp := "T3", marked_by := "system" }

/-- Concrete session state for the C6 counterexample: Amy with three
qualifying records, one of them `present`. -/
def c6State : SessionState :=
  { emptyState with
      students_database := [("student_0001", c6Student)],
      attendance_records :=
        [("D1_student_0001", c6Rec1), ("D2_student_0001", c6Rec2),
         ("D3_student_0001", c6Rec3)] }

/-- C6 counterexample: with 3 qualifying records of which 1 is present, the
summary percentage is `round(1/3*100, 2) = 33.33`, not the claimed exact
`presentDays / totalDays × 100 = 100/3`. -/
theorem c6_counterexample_percentage_rounded :
    ((get_attendance_summary_student "Amy" (fun _ => 5) 0 10 c6State).map
      (fun su => (su.total_days, su.present_days))) = some (3, 1) ∧
    ((get_attendance_summary_student "Amy" (fun _ => 5) 0 10 c6State).map
      (fun su => su.attendance_percentage)) = some (3333 / 100 : ℚ) ∧
    ((3333 : ℚ) / 100) ≠ (1 : ℚ) / 3 * 100 := by
  refine ⟨by decide, ?_, by norm_num⟩
  rw [show get_attendance_summary_student "Amy" (fun _ => 5) 0 10 c6State =
      some (mkAttSummary "student_0001" [c6Rec1, c6Rec2, c6Rec3]) from rfl]
  have hpct : (mkAttSummary "student_0001" [c6Rec1, c6Rec2, c6Rec3]).attendance_percentage =
      3333 / 100 := by
    have hlen : ([c6Rec1, c6Rec2, c6Rec3].filter (fun r => r.status = "present")).length
        = 1 := by decide
    simp only [mkAttSummary, List.length_cons, List.length_nil, hlen]
    norm_num [pyRound2, roundHalfEven]
  show some (mkAttSummary "student_0001" [c6Rec1, c6Rec2, c6Rec3]).attendance_percentage =
    some (3333 / 100 : ℚ)
  exact congrArg some hpct

/-- C6 (amended): the per-student summary percentage is
`round2(presentDays / totalDays × 100)` (never a division error, the
function is total), and is exactly 0 when there are 0 qualifying records. -/
theorem c6_amended_percentage (student_name : String) (parseOrd : String → Nat)
    (startOrd endOrd : Nat) (s : SessionState) (su : AttSummary)
    (h : get_attendance_summary_student student_name parseOrd startOrd endOrd s =
      some su) :
    su.attendance_percentage =
      pyRound2 (if su.total_days > 0 then
        (su.present_days : ℚ) / (su.total_days : ℚ) * 100 else 0) ∧
    (su.total_days = 0 → su.attendance_percentage = 0) := by
  unfold get_attendance_summary_student at h
  cases hf : findStudent s.students_database (pyLower student_name) with
  | none =>
    simp only [hf] at h
    exact Option.noConfusion h
  | some p =>
    obtain ⟨sid, st⟩ := p
    simp only [hf] at h
    have he := Option.some.inj h
    subst he
    exact ⟨mkAttSummary_pct _ _, fun h0 => mkAttSummary_zero _ _ h0⟩

/-- C6 witness: the amended theorem applied to a state where Amy has no
qualifying records (total 0, percentage exactly 0). -/
theorem c6_amended_percentage_witness :
    (get_attendance_summary_student "Amy" (fun _ => 5) 0 10
      { emptyState with students_database := [("student_0001", c6Student)] } =
      some (mkAttSummary "student_0001" [])) ∧
    ((mkAttSummary "student_0001" []).attendance_percentage =
      pyRound2 (if (mkAttSummary "student_0001" []).total_days > 0 then
        ((mkAttSummary "student_0001" []).present_days : ℚ) /
          ((mkAttSummary "student_0001" []).total_days : ℚ) * 100 else 0) ∧
    ((mkAttSummary "student_0001" []).total_days = 0 →
      (mkAttSummary "student_0001" []).attendance_percentage = 0)) :=
  ⟨rfl, c6_amended_percentage "Amy" (fun _ => 5) 0 10
    { emptyState with students_database := [("student_0001", c6Student)] }
    (mkAttSummary "student_0001" []) rfl⟩

/-- The emotional-response answer used in the C8 witness. -/
def c8Entry : AnswerEntry :=
  { question := "How do you feel when you don\x27t understand something in class?",
    answer := "I get really frustrated and upset",
    category := "emotional", timestamp := "T5" }

/-- A concrete completed evaluation session whose emotional-response answer
contains "frustrated". -/
def c8Session : EvalSession :=
  { session_id := "eval_9", student_name := "Sam", start_time := "T0",
    questions := evaluation_questions "Sam", current_question_index := 15,
    answers := [("emotional_response", c8Entry)], status := "completed",
    completion_time := some "T5", evaluator := "system" }

/-- Concrete session state holding `c8Session`. -/
def c8State : SessionState :=
  { emptyState with evaluation_sessions := [("eval_9", c8Session)] }

/-- C8: for every completed evaluation whose emotional-response answer
contains the substring "frustrated", the analysis pass yields
`emotional_stability = "needs_support"` (the frustrated/angry branch is
checked first, so other keywords cannot override it) and stores a profile
with that value under the student name. -/
theorem c8_frustrated_needs_support (session_id now : String) (s : SessionState)
    (sess : EvalSession) (ent : AnswerEntry)
    (h1 : dictGet s.evaluation_sessions session_id = some sess)
    (_hst : sess.status = "completed")
    (h2 : dictGet sess.answers "emotional_response" = some ent)
    (h3 : pyIn "frustrated" ent.answer) :
    (analyze_student_responses session_id now s).1 =
      some (buildAnalysis sess session_id now) ∧
    (buildAnalysis sess session_id now).emotional_analysis.emotional_stability =
      "needs_support" ∧
    ∃ prof,
      dictGet (analyze_student_responses session_id now s).2.student_profiles
        sess.student_name = some prof ∧
      prof.analysis.emotional_analysis.emotional_stability = "needs_support" := by
  have hans : answerText sess.answers "emotional_response" = ent.answer := by
    simp [answerText, h2]
  have hstab : (buildAnalysis sess session_id now).emotional_analysis.emotional_stability =
      "needs_support" := by
    rw [buildAnalysis_emotional_stability, hans]
    exact emotionalStabilityOf_frustrated _ (pyIn_pyLower "frustrated" ent.answer (by decide) h3)
  rw [analyze_found_eq session_id now s sess h1]
  exact ⟨rfl, hstab, _, dictGet_dictInsert_self _ _ _, hstab⟩

/-- C8 witness: the theorem applied to the concrete completed session whose
emotional-response answer is "I get really frustrated and upset". -/
theorem c8_frustrated_needs_support_witness :
    (dictGet c8State.evaluation_sessions "eval_9" = some c8Session ∧
      c8Session.status = "completed" ∧
      dictGet c8Session.answers "emotional_response" = some c8Entry ∧
      pyIn "frustrated" c8Entry.answer) ∧
    ((analyze_student_responses "eval_9" "T6" c8State).1 =
      some (buildAnalysis c8Session "eval_9" "T6") ∧
    (buildAnalysis c8Session "eval_9" "T6").emotional_analysis.emotional_stability =
      "needs_support" ∧
    ∃ prof,
      dictGet (analyze_student_responses "eval_9" "T6" c8State).2.student_profiles
        c8Session.student_name = some prof ∧
      prof.analysis.emotional_analysis.emotional_stability = "needs_support") :=
  ⟨⟨rfl, rfl, rfl, by decide⟩,
   c8_frustrated_needs_support "eval_9" "T6" c8State c8Session c8Entry rfl rfl rfl
     (by decide)⟩

/-- C9 counterexample: `update_user_info` (a tool cited by the claim) has no
catch-all handler; called without a tool context its body raises an
`AttributeError` that propagates to the caller instead of being converted
into an `{status: error, message}` return value. -/
theorem c9_counterexample_update_user_info_propagates :
    update_user_info "Alice" (some "Teacher") "t0" none =
      Except.error "AttributeError: NoneType object has no attribute state" := rfl

/-- C9 (amended): the sub-agent tools wrap their bodies in a catch-all — any
exception raised by the `save_attendance` body is converted into an
`{status: error, message}` return value rather than propagated — but the
manager-agent tools such as `update_user_info` have no such wrapper. -/
theorem c9_amended_save_attendance_catch_all (student_name : String)
    (grade date_str : Option String) (today now : String)
    (ctx : Option SessionState) (e : String)
    (h : save_attendance_body student_name grade date_str today now ctx =
      Except.error e) :
    save_attendance_tool student_name grade date_str today now ctx =
      (SaveResult.error ("Failed to save attendance: " ++ e), ctx) ∧
    (SaveResult.error ("Failed to save attendance: " ++ e)).status = "error" := by
  unfold save_attendance_tool
  rw [h]
  exact ⟨rfl, rfl⟩

/-- C9 witness: the catch-all theorem applied to the concrete raising input
(no tool context). -/
theorem c9_amended_save_attendance_catch_all_witness :
    save_attendance_body "John" none none "t" "t" none =
      Except.error "AttributeError: NoneType object has no attribute state" ∧
    (save_attendance_tool "John" none none "t" "t" none =
      (SaveResult.error ("Failed to save attendance: " ++
        "AttributeError: NoneType object has no attribute state"), none) ∧
    (SaveResult.error ("Failed to save attendance: " ++
      "AttributeError: NoneType object has no attribute state")).status = "error") :=
  ⟨rfl, c9_amended_save_attendance_catch_all "John" none none "t" "t" none _ rfl⟩

end EduMgr
